import Mathlib

/-!
Shallow embedding of the deduplicating ingestion-and-ranking pipeline of the
ai-news-aggregator repository, with theorems settling the spec claims.

The database is modelled as in-memory lists of rows (one list per table),
threaded explicitly through the repository operations.  External
collaborators (the LLM summarizer/ranker, the RSS parser, the system clock)
are parameters of the embedded functions, matching the spec, which treats
them as black boxes with defined input/output contracts.
-/

namespace AiNews

/-- Source type enumeration (app/database/models.py, class SourceType). -/
inductive SourceType
  | blog
  | youtube
  | news
  | sec
  | rss
deriving DecidableEq, Repr

/-- A row of the sources table (app/database/models.py, class Source).
Timestamps are omitted: no claim depends on them. -/
structure Source where
  id : Nat
  name : String
  url : String
  source_type : SourceType
  youtube_channel_id : Option String := none
  youtube_username : Option String := none
  rss_url : Option String := none
deriving DecidableEq, Repr

/-- SourceRepository.get_by_url: first row whose url column matches. -/
def getSourceByUrl (db : List Source) (url : String) : Option Source :=
  db.find? (fun s => s.url == url)

/-- SourceRepository.get_by_youtube_channel_id. -/
def getSourceByChannelId (db : List Source) (channel_id : String) : Option Source :=
  db.find? (fun s => s.youtube_channel_id == some channel_id)

/-- SourceRepository.get_by_youtube_username. -/
def getSourceByUsername (db : List Source) (username : String) : Option Source :=
  db.find? (fun s => s.youtube_username == some username)

/-- SourceRepository.get_by_rss_url. -/
def getSourceByRssUrl (db : List Source) (rss_url : String) : Option Source :=
  db.find? (fun s => s.rss_url == some rss_url)

/-- The uniqueness constraints of the sources table (models.py): url is
unique, and rss_url, youtube_channel_id and youtube_username are each unique
when non-null.  True when inserting row s next to existing row t would
violate one of them. -/
def sourceConflicts (s t : Source) : Bool :=
  s.url == t.url
    || (s.rss_url.isSome && s.rss_url == t.rss_url)
    || (s.youtube_channel_id.isSome && s.youtube_channel_id == t.youtube_channel_id)
    || (s.youtube_username.isSome && s.youtube_username == t.youtube_username)

/-- Database-level errors surfaced by SQLAlchemy commit. -/
inductive DbError
  | uniqueViolation
deriving DecidableEq, Repr

/-- The row SourceRepository.create builds (fresh primary key modelled as the
current table length). -/
def mkSourceRow (db : List Source) (name url : String) (source_type : SourceType)
    (youtube_channel_id youtube_username rss_url : Option String) : Source :=
  { id := db.length, name := name, url := url, source_type := source_type,
    youtube_channel_id := youtube_channel_id, youtube_username := youtube_username,
    rss_url := rss_url }

/-- SourceRepository.create: insert and commit; the commit raises a unique
constraint violation when the new row conflicts with an existing one. -/
def sourceCreate (db : List Source) (name url : String) (source_type : SourceType)
    (youtube_channel_id youtube_username rss_url : Option String) :
    Except DbError (Source × List Source) :=
  let row := mkSourceRow db name url source_type youtube_channel_id youtube_username rss_url
  if db.any (fun t => sourceConflicts row t) then .error .uniqueViolation
  else .ok (row, db ++ [row])

/-- The lookup phase of SourceRepository.get_or_create: canonical URL first;
then, for RSS sources carrying a (truthy, hence nonempty) rss_url, the RSS
URL; then, for YouTube sources, the channel id and then the username. -/
def getOrCreateLookup (db : List Source) (url : String) (source_type : SourceType)
    (youtube_channel_id youtube_username rss_url : Option String) : Option Source :=
  (getSourceByUrl db url) <|>
  (if source_type = SourceType.rss then
     match rss_url with
     | some r => if r ≠ "" then getSourceByRssUrl db r else none
     | none => none
   else none) <|>
  (if source_type = SourceType.youtube then
     match youtube_channel_id with
     | some c => if c ≠ "" then getSourceByChannelId db c else none
     | none => none
   else none) <|>
  (if source_type = SourceType.youtube then
     match youtube_username with
     | some u => if u ≠ "" then getSourceByUsername db u else none
     | none => none
   else none)

/-- SourceRepository.get_or_create: return the first lookup match unmodified;
otherwise create.  The code wraps the create in no exception handler, so a
constraint violation propagates. -/
def sourceGetOrCreate (db : List Source) (name url : String) (source_type : SourceType)
    (youtube_channel_id youtube_username rss_url : Option String) :
    Except DbError (Source × List Source) :=
  match getOrCreateLookup db url source_type youtube_channel_id youtube_username rss_url with
  | some s => .ok (s, db)
  | none => sourceCreate db name url source_type youtube_channel_id youtube_username rss_url

/-- SourceRepository.get_or_create as executed when a concurrent writer
commits between the lookup phase and the insert (two overlapping fetch
passes): the lookups read dbAtLookup while the insert commits against
dbAtInsert.  The sequential run is the special case dbAtInsert = dbAtLookup. -/
def sourceGetOrCreateRaced (dbAtLookup dbAtInsert : List Source) (name url : String)
    (source_type : SourceType)
    (youtube_channel_id youtube_username rss_url : Option String) :
    Except DbError (Source × List Source) :=
  match getOrCreateLookup dbAtLookup url source_type youtube_channel_id youtube_username rss_url with
  | some s => .ok (s, dbAtLookup)
  | none => sourceCreate dbAtInsert name url source_type youtube_channel_id youtube_username rss_url

/-- A row of the articles table (models.py, class Article).  The publish
instant is an integer timestamp; content/markdown timestamps are omitted as
no claim depends on them. -/
structure Article where
  id : Nat
  source_id : Nat
  title : String
  url : String
  description : Option String := none
  published_at : Int
  feed_type : Option String := none
  markdown_content : Option String := none
deriving DecidableEq, Repr

/-- ArticleRepository.exists_by_url: some row has this url. -/
def articleExistsByUrl (db : List Article) (url : String) : Bool :=
  db.any (fun a => a.url == url)

/-- The row ArticleRepository.create inserts (fresh primary key modelled as
the current table length). -/
def articleCreate (db : List Article) (source_id : Nat) (title url : String)
    (published_at : Int) (description feed_type : Option String) : List Article :=
  db ++ [{ id := db.length, source_id := source_id, title := title, url := url,
           description := description, published_at := published_at,
           feed_type := feed_type }]

/-- A row of the videos table (models.py, class Video). -/
structure Video where
  id : Nat
  source_id : Nat
  title : String
  url : String
  video_id : String
  description : Option String := none
  transcript : Option String := none
  published_at : Int
deriving DecidableEq, Repr

/-- A row of the digests table (models.py, class Digest).  created_at is the
original publish instant when given (DigestRepository.create). -/
structure DigestRow where
  id : Nat
  article_id : Option Nat := none
  video_id : Option Nat := none
  url : String
  title : String
  summary : String
  content_type : String
  created_at : Int
deriving DecidableEq, Repr

/-- DigestRepository.exists_by_url: some digest row has this url. -/
def digestExistsByUrl (db : List DigestRow) (url : String) : Bool :=
  db.any (fun d => d.url == url)

/-- The database state the ingestion pipeline threads through its steps. -/
structure AggDb where
  sources : List Source
  articles : List Article
deriving DecidableEq, Repr

/-- A fetched RSS article as the scrapers hand it to the runner
(scrapers/anthropic_news_scraper.py and openai_news_scraper.py, class
NewsArticle). -/
structure NewsArticle where
  title : String
  url : String
  description : String := ""
  published_at : Int
  feed_type : String := ""
deriving DecidableEq, Repr

/-- Canonical URL of the hard-coded Anthropic source (runner.py). -/
def anthropicUrl : String := "https://www.anthropic.com"

/-- RSS feed URL of the hard-coded Anthropic source (runner.py). -/
def anthropicRssUrl : String :=
  "https://raw.githubusercontent.com/Olshansk/rss-feeds/main/feeds/feed_anthropic_news.xml"

/-- The per-article body of the save loop in
NewsAggregator._save_anthropic_articles: skip when the url already exists,
otherwise insert and count.  The per-item exception handler in the source
only fires on a concurrent duplicate insert, which cannot arise in this
sequential embedding, so the insert is total here. -/
def saveArticleStep (source_id : Nat) (acc : Nat × List Article) (a : NewsArticle) :
    Nat × List Article :=
  if articleExistsByUrl acc.2 a.url then acc
  else (acc.1 + 1,
        articleCreate acc.2 source_id a.title a.url a.published_at
          (some a.description) (some a.feed_type))

/-- NewsAggregator._save_anthropic_articles: get-or-create the Anthropic
source, then run the dedup-save loop over the fetched articles, returning
the count of newly saved articles.  A constraint violation from the source
get-or-create would propagate (no handler in the source code). -/
def saveAnthropicArticles (db : AggDb) (articles : List NewsArticle) :
    Except DbError (Nat × AggDb) :=
  match sourceGetOrCreate db.sources "Anthropic" anthropicUrl
      SourceType.rss none none (some anthropicRssUrl) with
  | .error e => .error e
  | .ok (source, sources1) =>
    let r := articles.foldl (saveArticleStep source.id) (0, db.articles)
    .ok (r.1, { sources := sources1, articles := r.2 })

/-- Number of stored article rows carrying a given url. -/
def articleCountUrl (db : List Article) (url : String) : Nat :=
  db.countP (fun a => a.url == url)

/-- The row DigestRepository.create inserts: created_at is the original
publish instant when supplied (fresh primary key modelled as the current
table length). -/
def digestCreate (db : List DigestRow) (url title summary content_type : String)
    (article_id video_id : Option Nat) (published_at : Int) : List DigestRow :=
  db ++ [{ id := db.length, article_id := article_id, video_id := video_id,
           url := url, title := title, summary := summary,
           content_type := content_type, created_at := published_at }]

/-- ArticleRepository.get_all: all rows ordered by publish instant
descending, truncated when a (truthy, hence nonzero) limit is given. -/
def getAllArticles (db : List Article) (limit : Option Nat) : List Article :=
  match limit with
  | some n => if n ≠ 0 then (db.mergeSort (fun a b => decide (b.published_at ≤ a.published_at))).take n
              else db.mergeSort (fun a b => decide (b.published_at ≤ a.published_at))
  | none => db.mergeSort (fun a b => decide (b.published_at ≤ a.published_at))

/-- VideoRepository.get_all, as getAllArticles. -/
def getAllVideos (db : List Video) (limit : Option Nat) : List Video :=
  match limit with
  | some n => if n ≠ 0 then (db.mergeSort (fun a b => decide (b.published_at ≤ a.published_at))).take n
              else db.mergeSort (fun a b => decide (b.published_at ≤ a.published_at))
  | none => db.mergeSort (fun a b => decide (b.published_at ≤ a.published_at))

/-- The database state the digest batch step reads and writes. -/
structure ContentDb where
  articles : List Article
  videos : List Video
  digests : List DigestRow
deriving DecidableEq, Repr

/-- The summarization collaborator behind DigestAgent, as the spec treats it:
a black box which, for an item's title, description and optional body, either
returns a (title, summary) pair or fails (rate limit, malformed response,
network fault). -/
def SummarizerOracle : Type := String → String → Option String → Option (String × String)

/-- Running totals and digest table of one process_digests run
(scripts/process_digests.py). -/
structure DigestRun where
  successful : Nat
  failed : Nat
  digests : List DigestRow
deriving DecidableEq, Repr

/-- The body of process_item for an article: summarize, then insert the
digest row; a summarizer failure is caught, counted and rolled back, leaving
the digest table unchanged. -/
def processArticleItem (agent : SummarizerOracle) (st : DigestRun) (a : Article) :
    DigestRun :=
  match agent a.title (a.description.getD "") a.markdown_content with
  | some ts =>
    { successful := st.successful + 1, failed := st.failed,
      digests := digestCreate st.digests a.url ts.1 ts.2 "article"
        (some a.id) none a.published_at }
  | none => { st with failed := st.failed + 1 }

/-- The body of process_item for a video, as processArticleItem. -/
def processVideoItem (agent : SummarizerOracle) (st : DigestRun) (v : Video) :
    DigestRun :=
  match agent v.title (v.description.getD "") v.transcript with
  | some ts =>
    { successful := st.successful + 1, failed := st.failed,
      digests := digestCreate st.digests v.url ts.1 ts.2 "video"
        none (some v.id) v.published_at }
  | none => { st with failed := st.failed + 1 }

/-- process_digests (scripts/process_digests.py): load all articles and
videos, filter out every item whose url already has a digest, then process
the remaining articles and after them the remaining videos. -/
def processDigests (agentA agentV : SummarizerOracle) (db : ContentDb)
    (limit : Option Nat) : DigestRun :=
  let articles := getAllArticles db.articles limit
  let videos := getAllVideos db.videos limit
  let articlesToProcess := articles.filter (fun a => !(digestExistsByUrl db.digests a.url))
  let videosToProcess := videos.filter (fun v => !(digestExistsByUrl db.digests v.url))
  let st1 := articlesToProcess.foldl (processArticleItem agentA) ⟨0, 0, db.digests⟩
  videosToProcess.foldl (processVideoItem agentV) st1

/-- Number of stored digest rows carrying a given url. -/
def digestCountUrl (db : List DigestRow) (url : String) : Nat :=
  db.countP (fun d => d.url == url)

/-- A single ranked digest item (agents/news_anchor_agent.py, class
RankedItem).  The 0.0-100.0 relevance score is modelled as a rational. -/
structure RankedItem where
  digest_id : Int
  url : String
  title : String
  relevance_score : ℚ
  rank : Int
  relevance_reason : String
deriving DecidableEq, Repr

/-- Structured ranking output (class RankingOutput). -/
structure RankingOutput where
  ranked_items : List RankedItem
deriving DecidableEq, Repr

/-- A digest dictionary as rank_digests receives it: keys id, url, title,
summary, content_type. -/
structure DigestDict where
  id : Int
  url : String
  title : String
  summary : String
  content_type : String
deriving DecidableEq, Repr

/-- The ranking collaborator, as the spec treats it: a black box receiving
the digest batch and the profile attributes and returning a RankingOutput. -/
def RankerOracle : Type := List DigestDict → String → String → String → RankingOutput

/-- NewsAnchorAgent.rank_digests: empty input short-circuits to an empty
output; otherwise the whole batch goes to the collaborator in one request
and its parsed output is returned unchanged.  The second component counts
the collaborator calls made. -/
def rankDigests (collaborator : RankerOracle) (digests : List DigestDict)
    (name background interests : String) : RankingOutput × Nat :=
  if digests.isEmpty then (⟨[]⟩, 0)
  else (collaborator digests name background interests, 1)

/-- The ranking-permutation contract of §6: one output entry per input
digest, rank values exactly 1..N, and output urls a permutation of the
input urls. -/
def RankingPermProperty (digests : List DigestDict) (out : RankingOutput) : Prop :=
  out.ranked_items.length = digests.length
    ∧ (out.ranked_items.map RankedItem.rank).Perm
        ((List.range digests.length).map (fun i => (i : Int) + 1))
    ∧ (out.ranked_items.map RankedItem.url).Perm (digests.map DigestDict.url)

instance (digests : List DigestDict) (out : RankingOutput) :
    Decidable (RankingPermProperty digests out) := by
  unfold RankingPermProperty; infer_instance

/-- Python str.strip(): drop leading and trailing whitespace (structural
implementation over the character list, so that it evaluates by
computation). -/
def pyStrip (s : String) : String :=
  String.mk (((s.data.dropWhile Char.isWhitespace).reverse.dropWhile Char.isWhitespace).reverse)

/-- A ranked-item dictionary as the email composer receives it; every field
is read with dict.get and a default, so each is optional here. -/
structure RankedDict where
  rank : Option Int := none
  title : Option String := none
  summary : Option String := none
  url : Option String := none
  relevance_score : Option ℚ := none
  content_type : Option String := none
deriving DecidableEq, Repr

/-- The introduction collaborator behind EmailAgent.generate_introduction:
a black box turning the top articles into an introduction paragraph. -/
def IntroOracle : Type := List RankedDict → String

/-- The static fallback introduction sentence
(agents/email_agent.py, generate_introduction). -/
def fallbackIntroduction : String :=
  "Here\x27s your personalized news digest for today."

/-- EmailAgent.generate_introduction: empty input returns the static
fallback sentence with no collaborator call; otherwise the collaborator is
invoked on the top 10 items.  The second component counts collaborator
calls. -/
def generateIntroduction (collaborator : IntroOracle)
    (ranked_items : List RankedDict) : String × Nat :=
  if ranked_items.isEmpty then (fallbackIntroduction, 0)
  else (collaborator (ranked_items.take 10), 1)

/-- A single article section of the composed email (class ArticleSection). -/
structure ArticleSection where
  rank : Int
  header : String
  summary : String
  url : String
  relevance_score : ℚ
  content_type : String
deriving DecidableEq, Repr

/-- The composed email (class EmailContent). -/
structure EmailContent where
  greeting : String
  date_line : String
  introduction : String
  sections : List ArticleSection
deriving DecidableEq, Repr

/-- The ordinal suffix EmailAgent._format_date appends: th on the
10 ≤ day mod 100 ≤ 20 band, else by last digit via the st/nd/rd table with
default th. -/
def ordinalSuffix (day : Nat) : String :=
  if 10 ≤ day % 100 ∧ day % 100 ≤ 20 then "th"
  else if day % 10 = 1 then "st"
  else if day % 10 = 2 then "nd"
  else if day % 10 = 3 then "rd"
  else "th"

/-- The pieces of a date the formatter uses: weekday name and month name as
strftime renders them, and the day of month. -/
structure DateParts where
  day_name : String
  month_name : String
  day : Nat
deriving DecidableEq, Repr

/-- EmailAgent._format_date: day name, month name, day and ordinal suffix. -/
def formatDate (d : DateParts) : String :=
  d.day_name ++ ", " ++ d.month_name ++ " " ++ toString d.day ++ ordinalSuffix d.day

/-- The section built for the item at position i of the top-10 list:
each field read with dict.get and its default, the rank defaulting to
i + 1. -/
def mkSection (i : Nat) (item : RankedDict) : ArticleSection :=
  { rank := item.rank.getD ((i : Int) + 1)
    header := item.title.getD ""
    summary := item.summary.getD ""
    url := item.url.getD ""
    relevance_score := item.relevance_score.getD 0
    content_type := item.content_type.getD "unknown" }

/-- EmailAgent.generate_email_content: truncate to the top 10, raise
ValueError on an empty list, personalize the greeting only for a non-blank
name, format the date line, generate the introduction, and build one section
per retained item. -/
def generateEmailContent (collaborator : IntroOracle) (user_name : Option String)
    (ranked_items : List RankedDict) (date : DateParts) :
    Except String EmailContent :=
  let top_items := ranked_items.take 10
  if top_items.isEmpty then .error "No ranked items provided"
  else
    let greeting :=
      match user_name with
      | some n => if pyStrip n ≠ "" then "Hey " ++ n ++ "," else ""
      | none => ""
    let date_line := formatDate date
    let intro := generateIntroduction collaborator top_items
    let sections := top_items.enum.map (fun p => mkSection p.1 p.2)
    .ok { greeting := greeting, date_line := date_line,
          introduction := intro.1, sections := sections }

/-- A raw feed entry as feedparser hands it to the fetchers: every field may
be absent.  The two publish fields carry the instant the external date
parsing yields (published_parsed, and the dateutil parse of the published
string) when it succeeds. -/
structure FeedEntry where
  title : Option String := none
  link : Option String := none
  summary : Option String := none
  description : Option String := none
  published_parsed : Option Int := none
  published : Option Int := none
deriving DecidableEq, Repr

/-- The _parse_date helper shared by the RSS scrapers: prefer
published_parsed, fall back to parsing the published string, else None. -/
def parseEntryDate (e : FeedEntry) : Option Int :=
  e.published_parsed <|> e.published

/-- Python str.split() then join: collapse whitespace runs to single
spaces. -/
def normalizeWs (s : String) : String :=
  String.intercalate " " ((s.split Char.isWhitespace).filter (fun w => w ≠ ""))

/-- The _get_description helper: summary, else description, else empty;
whitespace-normalized. -/
def getEntryDescription (e : FeedEntry) : String :=
  let desc :=
    match e.summary with
    | some s => if s ≠ "" then s else (e.description.getD "")
    | none => e.description.getD ""
  if desc ≠ "" then normalizeWs desc else ""

/-- The NewsArticle built from one retained feed entry: title and link read
with entry.get and an empty-string default, the title stripped. -/
def mkFeedArticle (e : FeedEntry) (d : Int) (feed_type : String) : NewsArticle :=
  { title := pyStrip (e.title.getD ""), url := e.link.getD "",
    description := getEntryDescription e, published_at := d,
    feed_type := feed_type }

/-- The entry loop of OpenAINewsScraper.get_articles (and of each feed of
AnthropicNewsScraper.get_articles): keep every entry whose publish date
parses and is within the cutoff; title and link are read with defaults, not
validated. -/
def rssGetArticles (entries : List FeedEntry) (cutoff : Int) : List NewsArticle :=
  entries.filterMap (fun e =>
    match parseEntryDate e with
    | some d => if cutoff ≤ d then some (mkFeedArticle e d "") else none
    | none => none)

/-- A fetched channel video (services/youtube_service.py, class
ChannelVideo). -/
structure ChannelVideo where
  title : String
  url : String
  video_id : String
  published_at : Int
  description : String := ""
  transcript : Option String := none
  channel_name : String
  channel_id : String
deriving DecidableEq, Repr

/-- YouTubeService.extract_video_id: the watch?v= query value, else the
youtu.be path segment, else the input unchanged.  Substring containment is
the split producing more than one part. -/
def extractVideoId (url : String) : String :=
  if (url.splitOn "watch?v=").length ≥ 2 then
    (((url.splitOn "watch?v=").getLastD "").splitOn "&").headD ""
  else if (url.splitOn "youtu.be/").length ≥ 2 then
    (((url.splitOn "youtu.be/").getLastD "").splitOn "?").headD ""
  else url

/-- YouTubeService._extract_video_info: discard entries missing title or
link, shorts, and entries whose video id is empty; the publish instant
defaults to now when unparsed; discard entries older than the cutoff. -/
def extractVideoInfo (e : FeedEntry) (now cutoff : Int)
    (channel_name channel_id : String) : Option ChannelVideo :=
  let title := pyStrip (e.title.getD "")
  let url := e.link.getD ""
  if title = "" ∨ url = "" then none
  else if (url.splitOn "/shorts/").length ≥ 2 then none
  else
    let vid := extractVideoId url
    if vid = "" then none
    else
      let published_at := (parseEntryDate e).getD now
      if published_at < cutoff then none
      else some
        { title := title, url := url, video_id := vid,
          published_at := published_at,
          description := normalizeWs
            (if e.summary.getD "" ≠ "" then e.summary.getD "" else e.description.getD ""),
          transcript := none,
          channel_name := channel_name, channel_id := channel_id }

/-- The entry loop of YouTubeService.get_channel_videos: keep exactly the
entries _extract_video_info accepts. -/
def channelVideosFromEntries (entries : List FeedEntry) (now cutoff : Int)
    (channel_name channel_id : String) : List ChannelVideo :=
  entries.filterMap (fun e => extractVideoInfo e now cutoff channel_name channel_id)

/-- The ordinal suffix the spec claims for a calendar day, written from the
spec sentence: th across the 11 to 13 exception band, else st/nd/rd by last
digit with default th.  Stated separately from ordinalSuffix (the code),
to be compared against it. -/
def claimedOrdinalSuffix (day : Nat) : String :=
  if 11 ≤ day ∧ day ≤ 13 then "th"
  else if day % 10 = 1 then "st"
  else if day % 10 = 2 then "nd"
  else if day % 10 = 3 then "rd"
  else "th"

/-- A sample fetched article, used to instantiate theorems. -/
def sampleNewsArticle : NewsArticle :=
  { title := "T", url := "https://x.example/a", description := "d", published_at := 100, feed_type := "news" }

/-- A sample content state with one article whose url already has a digest,
used to instantiate theorems. -/
def sampleContentDb : ContentDb :=
  { articles := [{ id := 1, source_id := 1, title := "T", url := "https://x.example/a", published_at := 100 }]
  , videos := []
  , digests := [{ id := 0, article_id := some 1, url := "https://x.example/a", title := "dt", summary := "ds", content_type := "article", created_at := 100 }] }

/-- A sample digest dictionary, used to instantiate theorems. -/
def sampleDigest : DigestDict :=
  { id := 1, url := "u", title := "t", summary := "s", content_type := "article" }

/-- A sample collaborator output ranking the one sample digest, used to
instantiate theorems. -/
def sampleRankingOutput : RankingOutput :=
  { ranked_items := [{ digest_id := 1, url := "u", title := "t", relevance_score := 50, rank := 1, relevance_reason := "r" }] }

/-- A sample ranked-item dictionary, used to instantiate theorems. -/
def sampleRankedDict : RankedDict :=
  { rank := some 1, title := some "t", summary := some "s", url := some "u", relevance_score := some 50, content_type := some "article" }

/-- A sample stored channel source, used to instantiate theorems. -/
def sampleChannelSource : Source :=
  { id := 0, name := "Chan", url := "https://www.youtube.com/@oldhandle", source_type := SourceType.youtube, youtube_channel_id := some "UCX", youtube_username := some "oldhandle" }

/-- A sample source committed by a concurrent writer, used to instantiate
theorems. -/
def sampleRacedSource : Source :=
  { id := 0, name := "Other", url := "https://openai.com", source_type := SourceType.rss }

/-- A sample feed entry with no title field, used to instantiate theorems. -/
def sampleTitlelessEntry : FeedEntry :=
  { link := some "https://example.com/a", published_parsed := some 100 }

/-- A sample valid feed entry, used to instantiate theorems. -/
def sampleGoodEntry : FeedEntry :=
  { title := some "Good", link := some "https://www.youtube.com/watch?v=abc", published_parsed := some 100 }

/-- Fifteen ranked-item dictionaries with ranks 1..15 in ascending order,
used to instantiate theorems. -/
def sampleRanked15 : List RankedDict :=
  (List.range 15).map (fun i =>
    { rank := some ((i : Int) + 1), title := some "t", summary := some "s", url := some "u", relevance_score := some 50, content_type := some "article" })

/-! ## Theorems -/

/-- C7: rank_digests on the empty digest list returns the empty output with
zero calls to the ranking collaborator, and generate_introduction on the
empty ranked list returns the static fallback sentence with zero calls to
the LLM collaborator. -/
theorem claim_C7_empty_fast_path :
    (∀ (collaborator : RankerOracle) (name background interests : String),
      rankDigests collaborator [] name background interests = (⟨[]⟩, 0))
    ∧ (∀ (collaborator : IntroOracle),
      generateIntroduction collaborator [] = (fallbackIntroduction, 0)) := by
  exact ⟨fun _ _ _ _ => rfl, fun _ => rfl⟩

/-- C9: for every day of month from 1 to 31, the date line produced by
EmailAgent._format_date ends in the day number followed by the correct
English ordinal suffix, th across the 11 to 13 band and st/nd/rd by last
digit elsewhere. -/
theorem claim_C9_ordinal_suffix (day : Nat) (h1 : 1 ≤ day) (h2 : day ≤ 31)
    (day_name month_name : String) :
    formatDate ⟨day_name, month_name, day⟩
      = day_name ++ ", " ++ month_name ++ " " ++ toString day
          ++ claimedOrdinalSuffix day := by
  have key : ∀ d, d ≤ 31 → 1 ≤ d → ordinalSuffix d = claimedOrdinalSuffix d := by decide
  simp only [formatDate]
  rw [key day h2 h1]

/-- Witness for C9 at day 21. -/
theorem claim_C9_ordinal_suffix_witness :
    (1 ≤ 21 ∧ 21 ≤ 31)
    ∧ formatDate ⟨"Friday", "November", 21⟩
        = "Friday" ++ ", " ++ "November" ++ " " ++ toString 21
            ++ claimedOrdinalSuffix 21 :=
  ⟨⟨by decide, by decide⟩,
   claim_C9_ordinal_suffix 21 (by decide) (by decide) "Friday" "November"⟩

/-- C10: generate_email_content on the empty ranked list raises ValueError
with message No ranked items provided and yields no EmailContent; any
successful composition had a nonempty input, and on every nonempty input the
introduction generator is actually invoked (call count one), so the
static-fallback branch is unreachable through this compose entry point. -/
theorem claim_C10_empty_compose_raises :
    (∀ (collaborator : IntroOracle) (user_name : Option String) (date : DateParts),
      generateEmailContent collaborator user_name [] date
        = .error "No ranked items provided")
    ∧ (∀ (collaborator : IntroOracle) (user_name : Option String)
        (ranked_items : List RankedDict) (date : DateParts) (c : EmailContent),
      generateEmailContent collaborator user_name ranked_items date = .ok c →
        ranked_items ≠ [])
    ∧ (∀ (collaborator : IntroOracle) (ranked_items : List RankedDict),
      ranked_items ≠ [] →
        (generateIntroduction collaborator (ranked_items.take 10)).2 = 1) := by
  refine ⟨fun _ _ _ => rfl, ?_, ?_⟩
  · intro collaborator user_name ranked_items date c hok hnil
    subst hnil
    exact Except.noConfusion hok
  · intro collaborator ranked_items hne
    have h10 : ranked_items.take 10 ≠ [] := by
      simp [List.take_eq_nil_iff, hne]
    simp [generateIntroduction, List.isEmpty_iff, h10]

/-- Witness for C10 on a one-item ranked list. -/
theorem claim_C10_empty_compose_raises_witness :
    ([sampleRankedDict] ≠ ([] : List RankedDict))
    ∧ (generateIntroduction (fun _ => "intro") ([sampleRankedDict].take 10)).2 = 1 :=
  ⟨by decide,
   claim_C10_empty_compose_raises.2.2 (fun _ => "intro") [sampleRankedDict] (by decide)⟩

/-- C5: for a nonempty digest batch, when the ranking collaborator honors
its §6 response contract, the output of rank_digests has exactly one entry
per input digest, rank values exactly 1..N, and input urls covered exactly
(rank_digests returns the collaborator output unchanged and owns this
contract). -/
theorem claim_C5_ranking_permutation (collaborator : RankerOracle)
    (digests : List DigestDict) (name background interests : String)
    (hne : digests ≠ [])
    (hcontract : RankingPermProperty digests
      (collaborator digests name background interests)) :
    RankingPermProperty digests
      (rankDigests collaborator digests name background interests).1 := by
  have h : digests.isEmpty = false := by simp [List.isEmpty_iff, hne]
  simpa [rankDigests, h] using hcontract

/-- Witness for C5 on a one-digest batch and a contract-honoring
collaborator. -/
theorem claim_C5_ranking_permutation_witness :
    ([sampleDigest] ≠ []
      ∧ RankingPermProperty [sampleDigest]
          ((fun _ _ _ _ => sampleRankingOutput) [sampleDigest] "n" "b" "i"))
    ∧ RankingPermProperty [sampleDigest]
        (rankDigests (fun _ _ _ _ => sampleRankingOutput) [sampleDigest] "n" "b" "i").1 :=
  ⟨⟨by decide, by decide⟩,
   claim_C5_ranking_permutation _ _ "n" "b" "i" (by decide) (by decide)⟩

/-- The get-or-create of the hard-coded Anthropic source always succeeds in
a sequential run, and running it again on the resulting table returns the
same record with the table unchanged. -/
theorem anthropicGetOrCreate_stable (db : List Source) :
    ∃ s db1,
      sourceGetOrCreate db "Anthropic" anthropicUrl SourceType.rss none none
        (some anthropicRssUrl) = .ok (s, db1)
      ∧ sourceGetOrCreate db1 "Anthropic" anthropicUrl SourceType.rss none none
        (some anthropicRssUrl) = .ok (s, db1) := by
  have hr : anthropicRssUrl ≠ "" := by decide
  cases hL : getOrCreateLookup db anthropicUrl SourceType.rss none none
      (some anthropicRssUrl) with
  | some s =>
    exact ⟨s, db, by simp [sourceGetOrCreate, hL], by simp [sourceGetOrCreate, hL]⟩
  | none =>
    have hL2 : (getSourceByUrl db anthropicUrl
        <|> getSourceByRssUrl db anthropicRssUrl) = none := by
      simpa [getOrCreateLookup, hr] using hL
    have hparts : getSourceByUrl db anthropicUrl = none
        ∧ getSourceByRssUrl db anthropicRssUrl = none := by
      cases h1 : getSourceByUrl db anthropicUrl <;>
        cases h2 : getSourceByRssUrl db anthropicRssUrl <;> simp_all
    obtain ⟨ha, hb⟩ := hparts
    have hconf : db.any (fun t => sourceConflicts
        (mkSourceRow db "Anthropic" anthropicUrl SourceType.rss none none
          (some anthropicRssUrl)) t) = false := by
      rw [List.any_eq_false]
      intro t ht
      have h1 : ¬ (t.url == anthropicUrl) = true := List.find?_eq_none.mp ha t ht
      have h2 : ¬ (t.rss_url == some anthropicRssUrl) = true :=
        List.find?_eq_none.mp hb t ht
      simp only [beq_iff_eq] at h1 h2
      simp [sourceConflicts, mkSourceRow]
      exact ⟨fun h => h1 h.symm, fun h => h2 h.symm⟩
    refine ⟨mkSourceRow db "Anthropic" anthropicUrl SourceType.rss none none
        (some anthropicRssUrl),
      db ++ [mkSourceRow db "Anthropic" anthropicUrl SourceType.rss none none
        (some anthropicRssUrl)], ?_, ?_⟩
    · simp [sourceGetOrCreate, hL, sourceCreate, hconf]
    · have hfind : getSourceByUrl
          (db ++ [mkSourceRow db "Anthropic" anthropicUrl SourceType.rss none none
            (some anthropicRssUrl)]) anthropicUrl
          = some (mkSourceRow db "Anthropic" anthropicUrl SourceType.rss none none
            (some anthropicRssUrl)) := by
        unfold getSourceByUrl
        rw [List.find?_append]
        unfold getSourceByUrl at ha
        rw [ha]
        simp [mkSourceRow]
      simp [sourceGetOrCreate, getOrCreateLookup, hfind]

/-- C1: running the ingestion save path twice with the same article leaves
exactly one stored row for its URL: in a well-formed table (at most one row
per URL, the uniqueness constraint) the first run saves the article iff its
URL is absent, and the second run finds the URL present, skips it with no
update and no error, and reports zero newly-saved items. -/
theorem claim_C1_dedup_idempotent (db : AggDb) (a : NewsArticle)
    (hwf : articleCountUrl db.articles a.url ≤ 1) :
    ∃ c1 db1 c2,
      saveAnthropicArticles db [a] = .ok (c1, db1)
      ∧ saveAnthropicArticles db1 [a] = .ok (c2, db1)
      ∧ articleCountUrl db1.articles a.url = 1 ∧ c2 = 0 := by
  obtain ⟨s, s1, hgoc1, hgoc2⟩ := anthropicGetOrCreate_stable db.sources
  cases he : articleExistsByUrl db.articles a.url with
  | true =>
    have hpos : 0 < articleCountUrl db.articles a.url := by
      rw [articleCountUrl, List.countP_pos_iff]
      exact List.any_eq_true.mp he
    refine ⟨0, ⟨s1, db.articles⟩, 0, ?_, ?_,
      (by omega : articleCountUrl db.articles a.url = 1), rfl⟩
    · simp [saveAnthropicArticles, hgoc1, saveArticleStep, he]
    · simp [saveAnthropicArticles, hgoc2, saveArticleStep, he]
  | false =>
    have hzero : articleCountUrl db.articles a.url = 0 := by
      rw [articleCountUrl, List.countP_eq_zero]
      intro x hx
      exact List.any_eq_false.mp he x hx
    have he2 : articleExistsByUrl
        (articleCreate db.articles s.id a.title a.url a.published_at
          (some a.description) (some a.feed_type)) a.url = true := by
      rw [articleExistsByUrl, List.any_eq_true]
      exact ⟨_, List.mem_append_right _ (List.mem_singleton.mpr rfl), by simp⟩
    refine ⟨1, ⟨s1, articleCreate db.articles s.id a.title a.url a.published_at
      (some a.description) (some a.feed_type)⟩, 0, ?_, ?_, ?_, rfl⟩
    · simp [saveAnthropicArticles, hgoc1, saveArticleStep, he]
    · simp [saveAnthropicArticles, hgoc2, saveArticleStep, he2]
    · rw [articleCountUrl, articleCreate, List.countP_append]
      rw [articleCountUrl] at hzero
      simp [hzero]

/-- Witness for C1 on the empty database. -/
theorem claim_C1_dedup_idempotent_witness :
    articleCountUrl (AggDb.mk [] []).articles "https://x.example/a" ≤ 1
    ∧ ∃ c1 db1 c2,
      saveAnthropicArticles ⟨[], []⟩ [sampleNewsArticle] = .ok (c1, db1)
      ∧ saveAnthropicArticles db1 [sampleNewsArticle] = .ok (c2, db1)
      ∧ articleCountUrl db1.articles sampleNewsArticle.url = 1 ∧ c2 = 0 :=
  ⟨by decide, claim_C1_dedup_idempotent ⟨[], []⟩ sampleNewsArticle (by decide)⟩

/-- Processing articles can only add digest rows whose url occurs among the
processed articles: counting one url, the result is bounded by the starting
count plus the occurrences in the batch. -/
theorem processArticle_count_le (agent : SummarizerOracle) (u : String) :
    ∀ (l : List Article) (st : DigestRun),
      digestCountUrl ((l.foldl (processArticleItem agent) st).digests) u
        ≤ digestCountUrl st.digests u + l.countP (fun a => a.url == u) := by
  intro l
  induction l with
  | nil => intro st; simp
  | cons a l ih =>
    intro st
    rw [List.foldl_cons, List.countP_cons]
    refine le_trans (ih (processArticleItem agent st a)) ?_
    cases hg : agent a.title (a.description.getD "") a.markdown_content with
    | none => simp [processArticleItem, hg]
    | some ts =>
      have : digestCountUrl (processArticleItem agent st a).digests u
          = digestCountUrl st.digests u + if (a.url == u) then 1 else 0 := by
        simp [processArticleItem, hg, digestCreate, digestCountUrl,
          List.countP_append, List.countP_cons]
      rw [this]
      omega

/-- Processing articles none of which carries the url leaves that url's
digest count unchanged. -/
theorem processArticle_count_eq (agent : SummarizerOracle) (u : String) :
    ∀ (l : List Article) (st : DigestRun),
      l.countP (fun a => a.url == u) = 0 →
      digestCountUrl ((l.foldl (processArticleItem agent) st).digests) u
        = digestCountUrl st.digests u := by
  intro l
  induction l with
  | nil => intro st _; rfl
  | cons a l ih =>
    intro st hz
    rw [List.countP_cons] at hz
    have hl : l.countP (fun a => a.url == u) = 0 := by omega
    have hau : (a.url == u) = false := by
      by_contra hc
      simp only [Bool.not_eq_false] at hc
      simp [hc] at hz
    rw [List.foldl_cons, ih _ hl]
    cases hg : agent a.title (a.description.getD "") a.markdown_content with
    | none => simp [processArticleItem, hg]
    | some ts =>
      simp [processArticleItem, hg, digestCreate, digestCountUrl,
        List.countP_append, List.countP_cons, hau]

/-- Processing videos can only add digest rows whose url occurs among the
processed videos. -/
theorem processVideo_count_le (agent : SummarizerOracle) (u : String) :
    ∀ (l : List Video) (st : DigestRun),
      digestCountUrl ((l.foldl (processVideoItem agent) st).digests) u
        ≤ digestCountUrl st.digests u + l.countP (fun v => v.url == u) := by
  intro l
  induction l with
  | nil => intro st; simp
  | cons v l ih =>
    intro st
    rw [List.foldl_cons, List.countP_cons]
    refine le_trans (ih (processVideoItem agent st v)) ?_
    cases hg : agent v.title (v.description.getD "") v.transcript with
    | none => simp [processVideoItem, hg]
    | some ts =>
      have : digestCountUrl (processVideoItem agent st v).digests u
          = digestCountUrl st.digests u + if (v.url == u) then 1 else 0 := by
        simp [processVideoItem, hg, digestCreate, digestCountUrl,
          List.countP_append, List.countP_cons]
      rw [this]
      omega

/-- Processing videos none of which carries the url leaves that url's digest
count unchanged. -/
theorem processVideo_count_eq (agent : SummarizerOracle) (u : String) :
    ∀ (l : List Video) (st : DigestRun),
      l.countP (fun v => v.url == u) = 0 →
      digestCountUrl ((l.foldl (processVideoItem agent) st).digests) u
        = digestCountUrl st.digests u := by
  intro l
  induction l with
  | nil => intro st _; rfl
  | cons v l ih =>
    intro st hz
    rw [List.countP_cons] at hz
    have hl : l.countP (fun v => v.url == u) = 0 := by omega
    have hvu : (v.url == u) = false := by
      by_contra hc
      simp only [Bool.not_eq_false] at hc
      simp [hc] at hz
    rw [List.foldl_cons, ih _ hl]
    cases hg : agent v.title (v.description.getD "") v.transcript with
    | none => simp [processVideoItem, hg]
    | some ts =>
      simp [processVideoItem, hg, digestCreate, digestCountUrl,
        List.countP_append, List.countP_cons, hvu]

/-- Sorting and truncating a table does not increase any countP. -/
theorem getAllArticles_countP_le (db : List Article) (limit : Option Nat)
    (p : Article → Bool) :
    (getAllArticles db limit).countP p ≤ db.countP p := by
  have hperm := (List.mergeSort_perm db
    (fun a b => decide (b.published_at ≤ a.published_at))).countP_eq p
  cases limit with
  | none => simp [getAllArticles, hperm]
  | some n =>
    simp only [getAllArticles]
    by_cases hn : n ≠ 0
    · rw [if_pos hn]
      calc ((db.mergeSort _).take n).countP p
          ≤ (db.mergeSort _).countP p := (List.take_sublist _ _).countP_le p
        _ = db.countP p := hperm
    · rw [if_neg hn]
      simp [hperm]

/-- Sorting and truncating a table does not increase any countP
(video version). -/
theorem getAllVideos_countP_le (db : List Video) (limit : Option Nat)
    (p : Video → Bool) :
    (getAllVideos db limit).countP p ≤ db.countP p := by
  have hperm := (List.mergeSort_perm db
    (fun a b => decide (b.published_at ≤ a.published_at))).countP_eq p
  cases limit with
  | none => simp [getAllVideos, hperm]
  | some n =>
    simp only [getAllVideos]
    by_cases hn : n ≠ 0
    · rw [if_pos hn]
      calc ((db.mergeSort _).take n).countP p
          ≤ (db.mergeSort _).countP p := (List.take_sublist _ _).countP_le p
        _ = db.countP p := hperm
    · rw [if_neg hn]
      simp [hperm]

/-- C2: the digest batch step creates no digest row for a url that already
has one (those items are filtered out through exists_by_url before the
summarizer is ever invoked), and — in a well-formed state where article urls
are unique, video urls are unique, and the two url spaces are disjoint — it
preserves the at-most-one-digest-per-url invariant. -/
theorem claim_C2_at_most_one_digest (agentA agentV : SummarizerOracle)
    (db : ContentDb) (limit : Option Nat)
    (huniqA : ∀ u, db.articles.countP (fun a => a.url == u) ≤ 1)
    (huniqV : ∀ u, db.videos.countP (fun v => v.url == u) ≤ 1)
    (hdisj : ∀ a ∈ db.articles, ∀ v ∈ db.videos, a.url ≠ v.url) :
    (∀ u, digestExistsByUrl db.digests u = true →
      digestCountUrl (processDigests agentA agentV db limit).digests u
        = digestCountUrl db.digests u)
    ∧ ((∀ u, digestCountUrl db.digests u ≤ 1) →
      ∀ u, digestCountUrl (processDigests agentA agentV db limit).digests u ≤ 1) := by
  have hfilterA : ∀ u, digestExistsByUrl db.digests u = true →
      ((getAllArticles db.articles limit).filter
        (fun a => !(digestExistsByUrl db.digests a.url))).countP
          (fun a => a.url == u) = 0 := by
    intro u hex
    rw [List.countP_eq_zero]
    intro a ha hau
    have hmem := List.mem_filter.mp ha
    have hnoex : digestExistsByUrl db.digests a.url = false := by
      simpa using hmem.2
    rw [beq_iff_eq] at hau
    rw [hau, hex] at hnoex
    exact Bool.noConfusion hnoex
  have hfilterV : ∀ u, digestExistsByUrl db.digests u = true →
      ((getAllVideos db.videos limit).filter
        (fun v => !(digestExistsByUrl db.digests v.url))).countP
          (fun v => v.url == u) = 0 := by
    intro u hex
    rw [List.countP_eq_zero]
    intro v hv hvu
    have hmem := List.mem_filter.mp hv
    have hnoex : digestExistsByUrl db.digests v.url = false := by
      simpa using hmem.2
    rw [beq_iff_eq] at hvu
    rw [hvu, hex] at hnoex
    exact Bool.noConfusion hnoex
  constructor
  · intro u hex
    unfold processDigests
    rw [processVideo_count_eq agentV u _ _ (hfilterV u hex),
      processArticle_count_eq agentA u _ _ (hfilterA u hex)]
  · intro hdig u
    cases hex : digestExistsByUrl db.digests u with
    | true =>
      unfold processDigests
      rw [processVideo_count_eq agentV u _ _ (hfilterV u hex),
        processArticle_count_eq agentA u _ _ (hfilterA u hex)]
      exact hdig u
    | false =>
      have hzero : digestCountUrl db.digests u = 0 := by
        rw [digestCountUrl, List.countP_eq_zero]
        intro d hd
        exact List.any_eq_false.mp hex d hd
      have hAle : ((getAllArticles db.articles limit).filter
          (fun a => !(digestExistsByUrl db.digests a.url))).countP
            (fun a => a.url == u)
          ≤ db.articles.countP (fun a => a.url == u) :=
        le_trans ((List.filter_sublist _).countP_le _)
          (getAllArticles_countP_le db.articles limit _)
      have hVle : ((getAllVideos db.videos limit).filter
          (fun v => !(digestExistsByUrl db.digests v.url))).countP
            (fun v => v.url == u)
          ≤ db.videos.countP (fun v => v.url == u) :=
        le_trans ((List.filter_sublist _).countP_le _)
          (getAllVideos_countP_le db.videos limit _)
      have hsum : db.articles.countP (fun a => a.url == u)
          + db.videos.countP (fun v => v.url == u) ≤ 1 := by
        cases Nat.eq_zero_or_pos (db.articles.countP (fun a => a.url == u)) with
        | inl h0 => have := huniqV u; omega
        | inr hpos =>
          obtain ⟨a, hamem, hau⟩ := List.countP_pos_iff.mp hpos
          have hvz : db.videos.countP (fun v => v.url == u) = 0 := by
            rw [List.countP_eq_zero]
            intro v hvmem hvu
            rw [beq_iff_eq] at hau hvu
            exact hdisj a hamem v hvmem (by rw [hau, hvu])
          have := huniqA u
          omega
      unfold processDigests
      have h1 := processVideo_count_le agentV u
        ((getAllVideos db.videos limit).filter
          (fun v => !(digestExistsByUrl db.digests v.url)))
        (((getAllArticles db.articles limit).filter
          (fun a => !(digestExistsByUrl db.digests a.url))).foldl
            (processArticleItem agentA) ⟨0, 0, db.digests⟩)
      have h2 := processArticle_count_le agentA u
        ((getAllArticles db.articles limit).filter
          (fun a => !(digestExistsByUrl db.digests a.url)))
        ⟨0, 0, db.digests⟩
      simp only [digestCountUrl] at *
      omega

/-- Witness for C2 on a one-article, one-digest state where the article url
already has a digest. -/
theorem claim_C2_at_most_one_digest_witness :
    ((∀ u, sampleContentDb.articles.countP (fun a => a.url == u) ≤ 1)
      ∧ (∀ u, sampleContentDb.videos.countP (fun v => v.url == u) ≤ 1)
      ∧ (∀ a ∈ sampleContentDb.articles, ∀ v ∈ sampleContentDb.videos, a.url ≠ v.url))
    ∧ ((∀ u, digestExistsByUrl sampleContentDb.digests u = true →
        digestCountUrl (processDigests (fun _ _ _ => some ("t", "s"))
          (fun _ _ _ => some ("t", "s")) sampleContentDb none).digests u
          = digestCountUrl sampleContentDb.digests u)
      ∧ ((∀ u, digestCountUrl sampleContentDb.digests u ≤ 1) →
        ∀ u, digestCountUrl (processDigests (fun _ _ _ => some ("t", "s"))
          (fun _ _ _ => some ("t", "s")) sampleContentDb none).digests u ≤ 1))
    ∧ digestExistsByUrl sampleContentDb.digests "https://x.example/a" = true
    ∧ digestCountUrl (processDigests (fun _ _ _ => some ("t", "s"))
        (fun _ _ _ => some ("t", "s")) sampleContentDb none).digests
          "https://x.example/a"
        = digestCountUrl sampleContentDb.digests "https://x.example/a" := by
  have huniqA : ∀ u, sampleContentDb.articles.countP (fun a => a.url == u) ≤ 1 := by
    intro u
    simp [sampleContentDb, List.countP_cons]
    split <;> omega
  have huniqV : ∀ u, sampleContentDb.videos.countP (fun v => v.url == u) ≤ 1 := by
    intro u
    simp [sampleContentDb]
  have hdisj : ∀ a ∈ sampleContentDb.articles, ∀ v ∈ sampleContentDb.videos,
      a.url ≠ v.url := by
    intro a _ v hv
    simp [sampleContentDb] at hv
  have happ := claim_C2_at_most_one_digest (fun _ _ _ => some ("t", "s"))
    (fun _ _ _ => some ("t", "s")) sampleContentDb none huniqA huniqV hdisj
  exact ⟨⟨huniqA, huniqV, hdisj⟩, happ, by decide,
    happ.1 "https://x.example/a" (by decide)⟩

/-- C3: a get_or_create call for a YouTube source reporting an already-known
channel id X together with a renamed handle resolves to the existing record
and creates nothing, because the canonical-URL lookup misses (the reported
URL matches no stored source) and the channel-id lookup, checked before the
handle lookup, finds the record; the db is returned unmodified. -/
theorem claim_C3_channel_rename_stable (db : List Source) (A : Source)
    (name url X newHandle oldHandle : String)
    (hX : X ≠ "") (hNew : newHandle ≠ "")
    (hUrlMiss : getSourceByUrl db url = none)
    (hCid : getSourceByChannelId db X = some A)
    (hOld : A.youtube_username = some oldHandle)
    (hRenamed : oldHandle ≠ newHandle) :
    sourceGetOrCreate db name url SourceType.youtube (some X) (some newHandle) none
      = .ok (A, db) := by
  unfold sourceGetOrCreate getOrCreateLookup
  rw [hUrlMiss]
  simp [hX, hCid]

/-- Witness for C3: one stored channel source, then a fetch reporting the
same channel id with a renamed handle and the renamed canonical URL. -/
theorem claim_C3_channel_rename_stable_witness :
    (("UCX" : String) ≠ "" ∧ ("newhandle" : String) ≠ ""
      ∧ getSourceByUrl [sampleChannelSource] "https://www.youtube.com/@newhandle" = none
      ∧ getSourceByChannelId [sampleChannelSource] "UCX" = some sampleChannelSource
      ∧ sampleChannelSource.youtube_username = some "oldhandle"
      ∧ ("oldhandle" : String) ≠ "newhandle")
    ∧ sourceGetOrCreate [sampleChannelSource] "Chan"
        "https://www.youtube.com/@newhandle" SourceType.youtube
        (some "UCX") (some "newhandle") none
        = .ok (sampleChannelSource, [sampleChannelSource]) :=
  ⟨⟨by decide, by decide, by decide, by decide, by decide, by decide⟩,
   claim_C3_channel_rename_stable [sampleChannelSource] sampleChannelSource
     "Chan" "https://www.youtube.com/@newhandle" "UCX" "newhandle" "oldhandle"
     (by decide) (by decide) (by decide) (by decide) (by decide) (by decide)⟩

/-- Counterexample to C4: with an empty table at lookup time and a
concurrent duplicate (same canonical URL) committed before the insert, the
get_or_create creation step hits the unique constraint and the error
propagates to the caller; no rollback-and-re-resolve returns the existing
record, contrary to the claim. -/
theorem claim_C4_counterexample :
    sourceGetOrCreateRaced [] [sampleRacedSource] "OpenAI" "https://openai.com"
        SourceType.rss none none (some "https://r.example/feed.xml")
      = .error DbError.uniqueViolation
    ∧ ¬ ∃ r : Source × List Source,
        sourceGetOrCreateRaced [] [sampleRacedSource] "OpenAI" "https://openai.com"
          SourceType.rss none none (some "https://r.example/feed.xml") = .ok r := by
  constructor
  · rfl
  · rintro ⟨r, hr⟩
    rw [show sourceGetOrCreateRaced [] [sampleRacedSource] "OpenAI"
        "https://openai.com" SourceType.rss none none
        (some "https://r.example/feed.xml") = .error DbError.uniqueViolation
      from rfl] at hr
    exact Except.noConfusion hr

/-- C4 as amended: when the lookup phase misses and the creation step hits a
unique-constraint violation (a concurrent duplicate with the same canonical
URL was committed between lookup and insert), get_or_create propagates the
violation to the caller; the source has no handler, so no rollback and no
re-resolution happens. -/
theorem claim_C4_amended_violation_propagates
    (dbAtLookup dbAtInsert : List Source) (name url : String)
    (source_type : SourceType)
    (youtube_channel_id youtube_username rss_url : Option String)
    (hmiss : getOrCreateLookup dbAtLookup url source_type
      youtube_channel_id youtube_username rss_url = none)
    (hdup : ∃ t ∈ dbAtInsert, t.url = url) :
    sourceGetOrCreateRaced dbAtLookup dbAtInsert name url source_type
      youtube_channel_id youtube_username rss_url
      = .error DbError.uniqueViolation := by
  unfold sourceGetOrCreateRaced
  rw [hmiss]
  unfold sourceCreate
  obtain ⟨t, ht, hturl⟩ := hdup
  have hany : dbAtInsert.any (fun t2 => sourceConflicts
      (mkSourceRow dbAtInsert name url source_type youtube_channel_id
        youtube_username rss_url) t2) = true := by
    rw [List.any_eq_true]
    refine ⟨t, ht, ?_⟩
    simp [sourceConflicts, mkSourceRow, hturl]
  simp [hany]

/-- Witness for amended C4 at the concrete raced scenario. -/
theorem claim_C4_amended_violation_propagates_witness :
    (getOrCreateLookup [] "https://openai.com" SourceType.rss none none
        (some "https://r.example/feed.xml") = none
      ∧ ∃ t ∈ [sampleRacedSource], t.url = "https://openai.com")
    ∧ sourceGetOrCreateRaced [] [sampleRacedSource] "OpenAI" "https://openai.com"
        SourceType.rss none none (some "https://r.example/feed.xml")
        = .error DbError.uniqueViolation :=
  ⟨⟨by decide, ⟨sampleRacedSource, by decide, by decide⟩⟩,
   claim_C4_amended_violation_propagates [] [sampleRacedSource] "OpenAI"
     "https://openai.com" SourceType.rss none none
     (some "https://r.example/feed.xml") (by decide)
     ⟨sampleRacedSource, by decide, by decide⟩⟩

/-- Counterexample to C6: the RSS article fetchers do not discard an entry
missing its title — an entry with a parseable in-window date but no title
field is returned as an article with empty-string title. -/
theorem claim_C6_counterexample :
    rssGetArticles [sampleTitlelessEntry] 0
      = [{ title := "", url := "https://example.com/a", description := "", published_at := 100, feed_type := "" }]
    ∧ rssGetArticles [sampleTitlelessEntry] 0 ≠ [] := by
  exact ⟨rfl, by decide⟩

/-- C6 as amended: the video-channel fetcher discards every entry missing a
title or a link, without aborting the fetch of the surrounding entries; the
RSS article fetchers do not perform this check — an entry whose publish
date parses inside the window is returned even when title or link is
missing (with empty-string fields), and entries are only discarded for an
unparseable or out-of-window date. -/
theorem claim_C6_amended_invalid_entry_handling :
    (∀ (xs ys : List FeedEntry) (e : FeedEntry) (now cutoff : Int)
        (channel_name channel_id : String),
      (pyStrip (e.title.getD "") = "" ∨ e.link.getD "" = "") →
        channelVideosFromEntries (xs ++ e :: ys) now cutoff channel_name channel_id
          = channelVideosFromEntries (xs ++ ys) now cutoff channel_name channel_id)
    ∧ (∀ (entries : List FeedEntry) (e : FeedEntry) (cutoff d : Int),
      e ∈ entries → parseEntryDate e = some d → cutoff ≤ d →
        mkFeedArticle e d "" ∈ rssGetArticles entries cutoff) := by
  constructor
  · intro xs ys e now cutoff channel_name channel_id hbad
    have hnone : extractVideoInfo e now cutoff channel_name channel_id = none := by
      unfold extractVideoInfo
      simp only [if_pos hbad]
    simp [channelVideosFromEntries, List.filterMap_append, List.filterMap_cons, hnone]
  · intro entries e cutoff d hmem hdate hcut
    unfold rssGetArticles
    rw [List.mem_filterMap]
    exact ⟨e, hmem, by rw [hdate]; simp [hcut]⟩

/-- Taking a prefix commutes with enumeration. -/
theorem enumFrom_take {α : Type} (l : List α) :
    ∀ (n i : Nat), (l.enumFrom i).take n = (l.take n).enumFrom i := by
  induction l with
  | nil => simp
  | cons x xs ih =>
    intro n i
    cases n with
    | zero => simp
    | succ m => simp [List.enumFrom_cons, ih]

/-- C8: for a nonempty ranked list, generate_email_content succeeds and its
sections list has min 10 N entries; and when the input is in ascending rank
order (with the positional default for missing ranks), the sections keep
that ascending order. -/
theorem claim_C8_top10_truncation (collaborator : IntroOracle)
    (user_name : Option String) (ranked_items : List RankedDict)
    (date : DateParts) (hne : ranked_items ≠ [])
    (hsorted : List.Pairwise (· ≤ ·)
      (ranked_items.enum.map (fun p => p.2.rank.getD ((p.1 : Int) + 1)))) :
    ∃ c, generateEmailContent collaborator user_name ranked_items date = .ok c
      ∧ c.sections.length = min 10 ranked_items.length
      ∧ List.Pairwise (· ≤ ·) (c.sections.map ArticleSection.rank) := by
  have htop : (ranked_items.take 10).isEmpty = false := by
    simp [List.isEmpty_iff, List.take_eq_nil_iff, hne]
  have heq : generateEmailContent collaborator user_name ranked_items date
      = .ok { greeting :=
                match user_name with
                | some n => if pyStrip n ≠ "" then "Hey " ++ n ++ "," else ""
                | none => ""
            , date_line := formatDate date
            , introduction :=
                (generateIntroduction collaborator (ranked_items.take 10)).1
            , sections :=
                (ranked_items.take 10).enum.map (fun p => mkSection p.1 p.2) } := by
    simp [generateEmailContent, htop]
  refine ⟨_, heq, ?_, ?_⟩
  · simp [List.length_take, List.enum_length]
  · have hmm : (((ranked_items.take 10).enum.map
          (fun p => mkSection p.1 p.2)).map ArticleSection.rank)
        = (ranked_items.enum.map
            (fun p => p.2.rank.getD ((p.1 : Int) + 1))).take 10 := by
      rw [List.map_map]
      show (ranked_items.take 10).enum.map
        (fun p => p.2.rank.getD ((p.1 : Int) + 1)) = _
      rw [List.enum, ← enumFrom_take, ← List.enum, List.map_take]
    simp only [hmm]
    exact hsorted.sublist (List.take_sublist _ _)

/-- Witness for C8 at fifteen ranked items: exactly 10 sections, in
ascending rank order. -/
theorem claim_C8_top10_truncation_witness :
    (sampleRanked15 ≠ []
      ∧ List.Pairwise (· ≤ ·)
          (sampleRanked15.enum.map (fun p => p.2.rank.getD ((p.1 : Int) + 1))))
    ∧ ∃ c, generateEmailContent (fun _ => "intro") (some "Ada") sampleRanked15
          ⟨"Friday", "November", 21⟩ = .ok c
        ∧ c.sections.length = 10
        ∧ List.Pairwise (· ≤ ·) (c.sections.map ArticleSection.rank) :=
  ⟨⟨by decide, by decide⟩, by
    obtain ⟨c, h1, h2, h3⟩ := claim_C8_top10_truncation (fun _ => "intro")
      (some "Ada") sampleRanked15 ⟨"Friday", "November", 21⟩ (by decide) (by decide)
    exact ⟨c, h1, by simpa using h2, h3⟩⟩

/-- Witness for amended C6: a titleless entry between two valid entries is
dropped by the video fetcher without dropping its siblings, and the same
titleless entry is kept by the RSS fetcher. -/
theorem claim_C6_amended_invalid_entry_handling_witness :
    ((pyStrip (sampleTitlelessEntry.title.getD "") = ""
        ∨ sampleTitlelessEntry.link.getD "" = "")
      ∧ channelVideosFromEntries [sampleGoodEntry, sampleTitlelessEntry, sampleGoodEntry] 100 0 "c" "UCX"
          = channelVideosFromEntries [sampleGoodEntry, sampleGoodEntry] 100 0 "c" "UCX")
    ∧ (sampleTitlelessEntry ∈ [sampleGoodEntry, sampleTitlelessEntry]
      ∧ parseEntryDate sampleTitlelessEntry = some 100 ∧ (0 : Int) ≤ 100
      ∧ mkFeedArticle sampleTitlelessEntry 100 "" ∈ rssGetArticles [sampleGoodEntry, sampleTitlelessEntry] 0) :=
  ⟨⟨by decide,
    claim_C6_amended_invalid_entry_handling.1 [sampleGoodEntry] [sampleGoodEntry]
      sampleTitlelessEntry 100 0 "c" "UCX" (by decide)⟩,
   by decide, by decide, by decide,
   claim_C6_amended_invalid_entry_handling.2 [sampleGoodEntry, sampleTitlelessEntry]
     sampleTitlelessEntry 0 100 (by decide) (by decide) (by decide)⟩

end AiNews
